import Mathlib

/-!
A shallow embedding of the ledger core of `src/app.py` (a single-file
personal-finance dashboard).  The five-column transaction table is modelled as
a list of records; pandas DataFrame operations are modelled by the
corresponding list operations; float amounts are modelled as rationals.

Correspondence to the source:
* `Date`, `addMonths`      — `datetime.date` and `dateutil.relativedelta(months=i)`
  (month stepping clamps the day-of-month to the length of the target month).
* `Row`                    — one row of the table, columns `Data`, `Tipo`,
  `Categoria`, `Valor`, `Descrição`.  `Row (Option Date)` is a row as held in
  the session table, where `Data` may be `NaT` (`none`); `Row Date` is a row
  of the displayed/aggregated table (after `df.dropna(subset=["Data"])`).
* `load_data`              — lines 20-35; `pd.to_datetime(..., errors="coerce")`
  and `pd.to_numeric(..., errors="coerce").fillna(0)` are modelled by abstract
  per-field parsers `pdate`/`pnum` returning `Option`.
* `add_transaction`        — lines 41-62.  The sort `df.sort_values(by="Data")`
  is modelled by `List.insertionSort` on the date column (`NaT` last); pandas'
  quicksort is unstable, so only the resulting multiset is meaningful.
* `delete_transaction`     — lines 64-68.  `df.drop(index)` drops by label and
  raises `KeyError` when the label is absent (pandas default `errors="raise"`);
  session labels are the positions `0..n-1`, so the table is modelled in label
  order and a missing label is `index ≥ length`.
* `get_categories`         — lines 70-78.
* `submit_transaction`     — the form submit handler, lines 356-371: the
  `value > 0` guard rejects the entry with `st.error` and does not touch the
  table.
* `sinal`, `valorAjustado`, `total_balance`, `total_income`, `total_expense`
                           — lines 137-139 and 210-213.
* `cumulative_series`      — lines 242-260: group the displayed table by date
  (`groupby` sorts the distinct dates ascending), sum the per-day income,
  expense and adjusted value, then take running sums in date order.
* `format_currency`        — lines 12-17: `f"R$ {value:,.2f}"` followed by the
  separator-swapping `replace` chain; modelled by rounding to cents and
  rendering with `.` as thousands separator and `,` as decimal separator.
-/

/-- A calendar date, as `datetime.date`: year, month (1-12), day (1-31). -/
structure Date where
  year : Nat
  month : Nat
  day : Nat
deriving DecidableEq, Repr

/-- Lexicographic order on dates, the order `sort_values`/`groupby` use. -/
abbrev Date.le (a b : Date) : Prop :=
  a.year < b.year ∨ (a.year = b.year ∧
    (a.month < b.month ∨ (a.month = b.month ∧ a.day ≤ b.day)))

instance : DecidableRel Date.le := fun _ _ => inferInstanceAs (Decidable (_ ∨ _))

instance : IsTotal Date Date.le := ⟨by intro a b; unfold Date.le; omega⟩

instance : IsTrans Date Date.le := ⟨by intro a b c hab hbc; unfold Date.le at *; omega⟩

/-- Gregorian leap-year test (as in `dateutil`/`calendar`). -/
def isLeap (y : Nat) : Bool := (y % 4 == 0 && y % 100 != 0) || y % 400 == 0

/-- Number of days of month `m` of year `y`. -/
def daysInMonth (y m : Nat) : Nat :=
  if m = 2 then (if isLeap y then 29 else 28)
  else if m = 4 ∨ m = 6 ∨ m = 9 ∨ m = 11 then 30
  else 31

/-- `date + relativedelta(months := i)`: advance `i` calendar months, keeping
the day-of-month but clamping it to the length of the target month
(`dateutil` semantics: Jan 31 + 1 month = Feb 28/29). -/
def addMonths (d : Date) (i : Nat) : Date :=
  let t := d.month - 1 + i
  let y := d.year + t / 12
  let m := t % 12 + 1
  { year := y, month := m, day := min d.day (daysInMonth y m) }

/-- `year * 12 + (month - 1)`: months elapsed since year 0, used to compare
calendar months. -/
def monthIndex (d : Date) : Nat := d.year * 12 + (d.month - 1)

/-- `b` is dated exactly one calendar month after `a` with the same
day-of-month (the spacing the spec claims for installment rows). -/
abbrev sameDayOneMonthLater (a b : Date) : Prop :=
  b.day = a.day ∧ monthIndex b = monthIndex a + 1

/-- One row of the five-column table.  `δ` is the type of the `Data` column:
`Option Date` for the session table (where coercion failures leave `NaT`),
`Date` for the displayed/aggregated table. -/
structure Row (δ : Type) where
  data : δ
  tipo : String
  categoria : String
  valor : ℚ
  descricao : String
deriving DecidableEq

/-- Reinterpret a valid-date row as a session row. -/
def liftRow (r : Row Date) : Row (Option Date) :=
  { data := some r.data, tipo := r.tipo, categoria := r.categoria,
    valor := r.valor, descricao := r.descricao }

/-- Order on the session `Data` column used by `sort_values(by="Data")`:
ascending dates with `NaT` placed last (pandas `na_position="last"`). -/
def optDateLe : Option Date → Option Date → Prop
  | none, none => True
  | none, some _ => False
  | some _, none => True
  | some a, some b => Date.le a b

instance : DecidableRel optDateLe := fun a b => by
  cases a <;> cases b <;> simp only [optDateLe] <;> infer_instance

/-- Row order used by `df.sort_values(by="Data")`. -/
def rowLe (r s : Row (Option Date)) : Prop := optDateLe r.data s.data

instance : DecidableRel rowLe := fun r s =>
  inferInstanceAs (Decidable (optDateLe r.data s.data))

/-- One raw persisted record: the five CSV fields as read, before coercion. -/
structure RawRow where
  dataStr : String
  tipo : String
  categoria : String
  valorStr : String
  descricao : String
deriving DecidableEq

/-- Coercion of one raw record (lines 31-34): `pd.to_datetime(errors="coerce")`
leaves `none` (`NaT`) on parse failure, `pd.to_numeric(errors="coerce").fillna(0)`
coerces an unparseable amount to `0`.  `pdate`/`pnum` abstract the two pandas
parsers. -/
def loadRow (pdate : String → Option Date) (pnum : String → Option ℚ)
    (r : RawRow) : Row (Option Date) :=
  { data := pdate r.dataStr, tipo := r.tipo, categoria := r.categoria,
    valor := (pnum r.valorStr).getD 0, descricao := r.descricao }

/-- `load_data` (lines 20-35): coerce every persisted record in place; no row
is rejected. -/
def load_data (pdate : String → Option Date) (pnum : String → Option ℚ)
    (rows : List RawRow) : List (Row (Option Date)) :=
  rows.map (loadRow pdate pnum)

/-- `df.dropna(subset=["Data"])` (line 132): the displayed/aggregated table
keeps exactly the rows whose `Data` coerced successfully. -/
def dropNaData (df : List (Row (Option Date))) : List (Row Date) :=
  df.filterMap fun r =>
    r.data.map fun d =>
      { data := d, tipo := r.tipo, categoria := r.categoria,
        valor := r.valor, descricao := r.descricao }

/-- The income category list of `get_categories` (line 72). -/
def income_categories : List String :=
  ["Salário", "Investimento", "Freelance", "Presente", "Vendas", "Outros"]

/-- The expense category list of `get_categories` (line 73). -/
def expense_categories : List String :=
  ["Alimentação", "Transporte", "Moradia", "Lazer", "Saúde", "Educação",
   "Contas", "Compras", "Outros"]

/-- `get_categories` (lines 70-78): the income list for `"Receita"`, the
expense list for anything else. -/
def get_categories (transaction_type : String) : List String :=
  if transaction_type = "Receita" then income_categories else expense_categories

/-- The installment rows built by the loop of `add_transaction` (lines 43-55):
row `i` (0-based) is dated `date + relativedelta(months=i)`, carries the full
amount, and its description is suffixed `" (i+1/parcelas)"` when
`parcelas > 1`. -/
def newRows (date : Date) (tipo categoria : String) (valor : ℚ)
    (descricao : String) (parcelas : Nat) : List (Row Date) :=
  (List.range parcelas).map fun i =>
    { data := addMonths date i, tipo := tipo, categoria := categoria,
      valor := valor,
      descricao :=
        if parcelas > 1 then
          descricao ++ " (" ++ toString (i + 1) ++ "/" ++ toString parcelas ++ ")"
        else descricao }

/-- `add_transaction` (lines 41-62): append the installment rows to the table
and re-sort ascending by `Data`. -/
def add_transaction (df : List (Row (Option Date))) (date : Date)
    (tipo categoria : String) (valor : ℚ) (descricao : String)
    (parcelas : Nat) : List (Row (Option Date)) :=
  List.insertionSort rowLe
    (df ++ (newRows date tipo categoria valor descricao parcelas).map liftRow)

/-- The form submit handler (lines 356-371): only a strictly positive value is
passed to `add_transaction`; otherwise `st.error` is shown and the table is
untouched. -/
def submit_transaction (df : List (Row (Option Date))) (date : Date)
    (tipo categoria : String) (valor : ℚ) (descricao : String)
    (parcelas : Nat) : Except String (List (Row (Option Date))) :=
  if 0 < valor then
    Except.ok (add_transaction df date tipo categoria valor descricao parcelas)
  else
    Except.error "O valor deve ser maior que zero."

/-- `delete_transaction` (lines 64-68): `df.drop(index)` removes the row with
the given label; with the session labels `0..n-1` (modelled as the list
positions), a label that is not present makes pandas raise `KeyError`
(`errors="raise"` is the default), so nothing is dropped and nothing saved. -/
def delete_transaction (df : List (Row (Option Date))) (index : Nat) :
    Except String (List (Row (Option Date))) :=
  if index < df.length then Except.ok (df.eraseIdx index)
  else Except.error "KeyError"

/-- `Sinal` (line 137): `+1` for `"Receita"`, `-1` for any other `Tipo`. -/
def sinal (r : Row Date) : ℚ := if r.tipo = "Receita" then 1 else -1

/-- `Valor Ajustado` (line 138): the signed amount. -/
def valorAjustado (r : Row Date) : ℚ := r.valor * sinal r

/-- `total_balance` (line 210): sum of the signed amounts. -/
def total_balance (df : List (Row Date)) : ℚ :=
  (df.map valorAjustado).sum

/-- `total_income` (line 211): sum of `Valor` over rows with `Tipo == "Receita"`. -/
def total_income (df : List (Row Date)) : ℚ :=
  ((df.filter fun r => decide (r.tipo = "Receita")).map Row.valor).sum

/-- `total_expense` (line 212): sum of `Valor` over rows with `Tipo == "Despesa"`. -/
def total_expense (df : List (Row Date)) : ℚ :=
  ((df.filter fun r => decide (r.tipo = "Despesa")).map Row.valor).sum

/-- `Receita_diaria` (line 247): the amount if the row is an income, else 0. -/
def receita_diaria (r : Row Date) : ℚ := if r.tipo = "Receita" then r.valor else 0

/-- `Despesa_diaria` (line 248): the amount if the row is an expense, else 0. -/
def despesa_diaria (r : Row Date) : ℚ := if r.tipo = "Despesa" then r.valor else 0

/-- One aggregated cell of `df_plot.groupby("Data").agg(...)`: the sum of `f`
over the rows dated `d`. -/
def dailySum (f : Row Date → ℚ) (df : List (Row Date)) (d : Date) : ℚ :=
  ((df.filter fun r => decide (r.data = d)).map f).sum

/-- The group keys of `df_plot.groupby("Data")`: the distinct dates of the
table, ascending (pandas `groupby` sorts its keys). -/
def distinctDates (df : List (Row Date)) : List Date :=
  (List.insertionSort Date.le (df.map Row.data)).dedup

/-- The `cumsum` step (lines 256-258): walk the distinct dates in ascending
order carrying the accumulated income, expense and adjusted-value sums. -/
def runningTriples (df : List (Row Date)) :
    ℚ × ℚ × ℚ → List Date → List (Date × ℚ × ℚ × ℚ)
  | _, [] => []
  | acc, d :: ds =>
    let inc := acc.1 + dailySum receita_diaria df d
    let dsp := acc.2.1 + dailySum despesa_diaria df d
    let bal := acc.2.2 + dailySum valorAjustado df d
    (d, inc, dsp, bal) :: runningTriples df (inc, dsp, bal) ds

/-- `df_grouped` with its three accumulated columns (lines 242-258): one point
per distinct date, in ascending date order, carrying `Receita Acumulada`,
`Despesa Acumulada` and `Saldo Cumulativo`. -/
def cumulative_series (df : List (Row Date)) : List (Date × ℚ × ℚ × ℚ) :=
  runningTriples df (0, 0, 0) (distinctDates df)

/-- Insert a `.` after every third character (input and output reversed):
the thousands grouping of `f"{value:,.2f}"` after the separator swap. -/
def group3Rev : List Char → List Char
  | a :: b :: c :: d :: rest => a :: b :: c :: '.' :: group3Rev (d :: rest)
  | l => l

/-- Render a natural number with `.` as thousands separator. -/
def thousandsGrouped (n : Nat) : String :=
  String.mk ((group3Rev (toString n).data.reverse).reverse)

/-- Render a signed amount of cents as `f"R$ {value:,.2f}"` does after the
`replace` chain swaps `,` and `.`. -/
def formatCents (cents : Int) : String :=
  let sign := if cents < 0 then "-" else ""
  let n := cents.natAbs
  let frac := n % 100
  let fracStr := (if frac < 10 then "0" else "") ++ toString frac
  "R$ " ++ sign ++ thousandsGrouped (n / 100) ++ "," ++ fracStr

/-- The cents displayed by `f"{value:.2f}"`, modelled as rational rounding.
(CPython rounds the binary double half-to-even; the two renderings agree on
every amount with an exact two-decimal representation.) -/
def centsOf (v : ℚ) : Int := round (v * 100)

/-- `format_currency` (lines 12-17): Brazilian currency rendering, two decimal
places, `.` grouping thousands, `,` before the decimals, prefix `"R$ "`.
(The `pd.isna` branch has no counterpart for rational inputs.) -/
def format_currency (v : ℚ) : String := formatCents (centsOf v)

/-! ### Helper lemmas: calendar arithmetic -/

/-- Every month has at least 28 days. -/
theorem daysInMonth_ge (y m : Nat) : 28 ≤ daysInMonth y m := by
  unfold daysInMonth
  split
  · split <;> omega
  · split <;> omega

/-- `addMonths` keeps the day-of-month whenever it is at most 28 (no clamping
can occur). -/
theorem day_addMonths (d : Date) (k : Nat) (h : d.day ≤ 28) :
    (addMonths d k).day = d.day := by
  have h28 := daysInMonth_ge (d.year + (d.month - 1 + k) / 12) ((d.month - 1 + k) % 12 + 1)
  simp only [addMonths]
  omega

/-- `addMonths` advances the calendar-month index by exactly `k`. -/
theorem monthIndex_addMonths (d : Date) (k : Nat) :
    monthIndex (addMonths d k) = monthIndex d + k := by
  simp only [addMonths, monthIndex]
  omega

/-! ### C1 — installment expansion -/

/-- C1 (counterexample): as stated, the claim fails.  For a transaction dated
2024-01-31 split in 2 installments, `relativedelta` clamps the second row to
2024-02-29, which is not "exactly one calendar month after the previous row
with the same day-of-month" (its day-of-month is 29, not 31). -/
theorem claim1_counterexample :
    ¬ (newRows ⟨2024, 1, 31⟩ "Despesa" "Contas" 300 "Aluguel" 2).Chain'
        (fun r s => sameDayOneMonthLater r.data s.data) := by
  intro h
  have h0 : newRows ⟨2024, 1, 31⟩ "Despesa" "Contas" 300 "Aluguel" 2 =
      [{ data := ⟨2024, 1, 31⟩, tipo := "Despesa", categoria := "Contas",
         valor := 300, descricao := "Aluguel (1/2)" },
       { data := ⟨2024, 2, 29⟩, tipo := "Despesa", categoria := "Contas",
         valor := 300, descricao := "Aluguel (2/2)" }] := by decide
  rw [h0, List.chain'_cons] at h
  exact absurd h.1.1 (by decide)

/-- C1 (amended): for every append with `installments = n ≥ 2`, exactly `n`
new rows are produced; the k-th new row (0-based) is dated
`date + relativedelta(months=k)` — one calendar month after the previous row,
with the day-of-month kept whenever the starting day is at most 28 and clamped
to the target month's length otherwise — carries the same full amount, and has
the description suffixed `" (k+1/n)"`; the resulting table is a permutation of
the old table plus exactly these `n` new rows. -/
theorem claim1_installments (df : List (Row (Option Date))) (date : Date)
    (tipo categoria : String) (valor : ℚ) (descricao : String) (n : Nat)
    (h2 : 2 ≤ n) :
    (newRows date tipo categoria valor descricao n).length = n
    ∧ newRows date tipo categoria valor descricao n =
        (List.range n).map (fun k =>
          { data := addMonths date k, tipo := tipo, categoria := categoria,
            valor := valor,
            descricao := descricao ++ " (" ++ toString (k + 1) ++ "/"
              ++ toString n ++ ")" })
    ∧ (date.day ≤ 28 →
        (newRows date tipo categoria valor descricao n).Chain'
          (fun r s => sameDayOneMonthLater r.data s.data))
    ∧ (add_transaction df date tipo categoria valor descricao n).Perm
        (df ++ (newRows date tipo categoria valor descricao n).map liftRow) := by
  have h1 : 1 < n := lt_of_lt_of_le one_lt_two h2
  have hmap : newRows date tipo categoria valor descricao n =
      (List.range n).map (fun k =>
        { data := addMonths date k, tipo := tipo, categoria := categoria,
          valor := valor,
          descricao := descricao ++ " (" ++ toString (k + 1) ++ "/"
            ++ toString n ++ ")" }) := by
    unfold newRows
    refine List.map_congr_left ?_
    intro i _
    simp [h1]
  refine ⟨by simp [newRows], hmap, ?_, List.perm_insertionSort _ _⟩
  intro hday
  rw [hmap, List.chain'_map]
  obtain ⟨m, rfl⟩ : ∃ m, n = m + 1 := ⟨n - 1, by omega⟩
  rw [List.chain'_range_succ]
  intro k _
  constructor
  · rw [day_addMonths date (k + 1) hday, day_addMonths date k hday]
  · rw [monthIndex_addMonths, monthIndex_addMonths]
    omega

/-- C1 (witness): the amended statement at a concrete input, a 3-installment
expense of 300 starting 2024-01-15. -/
theorem claim1_installments_witness :
    (2 ≤ 3)
    ∧ ((newRows ⟨2024, 1, 15⟩ "Despesa" "Moradia" 300 "Aluguel" 3).length = 3
    ∧ newRows ⟨2024, 1, 15⟩ "Despesa" "Moradia" 300 "Aluguel" 3 =
        (List.range 3).map (fun k =>
          { data := addMonths ⟨2024, 1, 15⟩ k, tipo := "Despesa",
            categoria := "Moradia", valor := 300,
            descricao := "Aluguel" ++ " (" ++ toString (k + 1) ++ "/"
              ++ toString 3 ++ ")" })
    ∧ ((⟨2024, 1, 15⟩ : Date).day ≤ 28 →
        (newRows ⟨2024, 1, 15⟩ "Despesa" "Moradia" 300 "Aluguel" 3).Chain'
          (fun r s => sameDayOneMonthLater r.data s.data))
    ∧ (add_transaction [] ⟨2024, 1, 15⟩ "Despesa" "Moradia" 300 "Aluguel" 3).Perm
        ([] ++ (newRows ⟨2024, 1, 15⟩ "Despesa" "Moradia" 300 "Aluguel" 3).map liftRow)) :=
  ⟨by decide,
   claim1_installments [] ⟨2024, 1, 15⟩ "Despesa" "Moradia" 300 "Aluguel" 3 (by decide)⟩

/-! ### C8, C9 — category lookup -/

/-- C8: the category lookup is the fixed static table of the source: 6 income
categories for `"Receita"`, 9 expense categories for `"Despesa"`, both lists
ending in `"Outros"` ("Other"). -/
theorem claim8_categories :
    get_categories "Receita" = income_categories
    ∧ get_categories "Despesa" = expense_categories
    ∧ income_categories.length = 6
    ∧ expense_categories.length = 9
    ∧ income_categories.getLast? = some "Outros"
    ∧ expense_categories.getLast? = some "Outros" := by
  decide

/-- C9: every transaction type other than the literal `"Receita"` — not only
`"Despesa"` — gets the expense category list. -/
theorem claim9_default_expense (t : String) (h : t ≠ "Receita") :
    get_categories t = expense_categories := by
  unfold get_categories
  rw [if_neg h]

/-- C9 (witness): an arbitrary unrecognized string gets the expense list. -/
theorem claim9_default_expense_witness :
    ("Banana" ≠ "Receita") ∧ get_categories "Banana" = expense_categories :=
  ⟨by decide, claim9_default_expense "Banana" (by decide)⟩

/-! ### C4 — entry validation -/

/-- C4: whenever the entered value is not strictly positive, the submit
handler shows the validation error and never reaches `add_transaction`: no
table is produced, so nothing is appended. -/
theorem claim4_validation (df : List (Row (Option Date))) (date : Date)
    (tipo categoria : String) (valor : ℚ) (descricao : String) (parcelas : Nat)
    (h : valor ≤ 0) :
    submit_transaction df date tipo categoria valor descricao parcelas
      = Except.error "O valor deve ser maior que zero."
    ∧ ∀ t, submit_transaction df date tipo categoria valor descricao parcelas
        ≠ Except.ok t := by
  have hv : ¬ (0 < valor) := not_lt.mpr h
  have he : submit_transaction df date tipo categoria valor descricao parcelas
      = Except.error "O valor deve ser maior que zero." := by
    unfold submit_transaction
    rw [if_neg hv]
  refine ⟨he, ?_⟩
  intro t hc
  rw [he] at hc
  exact absurd hc (by simp)

/-- C4 (witness): a zero-valued entry is rejected. -/
theorem claim4_validation_witness :
    ((0 : ℚ) ≤ 0)
    ∧ (submit_transaction [] ⟨2024, 1, 15⟩ "Despesa" "Contas" 0 "" 1
        = Except.error "O valor deve ser maior que zero."
    ∧ ∀ t, submit_transaction [] ⟨2024, 1, 15⟩ "Despesa" "Contas" 0 "" 1
        ≠ Except.ok t) :=
  ⟨le_refl 0, claim4_validation [] ⟨2024, 1, 15⟩ "Despesa" "Contas" 0 "" 1 (le_refl 0)⟩

/-! ### C5 — delete of a nonexistent position -/

/-- C5 (counterexample): as stated, the claim fails.  Deleting label 0 from
the empty table does not silently return the unchanged table: `df.drop`
raises `KeyError`. -/
theorem claim5_counterexample :
    delete_transaction ([] : List (Row (Option Date))) 0 = Except.error "KeyError"
    ∧ delete_transaction ([] : List (Row (Option Date))) 0
        ≠ Except.ok ([] : List (Row (Option Date))) := by
  constructor
  · rfl
  · intro hc
    exact absurd hc (by simp [delete_transaction])

/-- C5 (amended): the delete operation, given a position that does not exist
in the table, raises an error (`KeyError`) instead of failing silently; no
`ok` table is produced, so the stored table is neither changed nor
corrupted. -/
theorem claim5_missing_position (df : List (Row (Option Date))) (index : Nat)
    (h : df.length ≤ index) :
    delete_transaction df index = Except.error "KeyError"
    ∧ ∀ t, delete_transaction df index ≠ Except.ok t := by
  have he : delete_transaction df index = Except.error "KeyError" := by
    unfold delete_transaction
    rw [if_neg (by omega)]
  refine ⟨he, ?_⟩
  intro t hc
  rw [he] at hc
  exact absurd hc (by simp)

/-- C5 (witness): deleting label 3 from a one-row table raises. -/
theorem claim5_missing_position_witness :
    (([{ data := some ⟨2024, 1, 15⟩, tipo := "Receita", categoria := "Salário",
         valor := 100, descricao := "" }] : List (Row (Option Date))).length ≤ 3)
    ∧ (delete_transaction
        [{ data := some ⟨2024, 1, 15⟩, tipo := "Receita", categoria := "Salário",
           valor := 100, descricao := "" }] 3 = Except.error "KeyError"
    ∧ ∀ t, delete_transaction
        [{ data := some ⟨2024, 1, 15⟩, tipo := "Receita", categoria := "Salário",
           valor := 100, descricao := "" }] 3 ≠ Except.ok t) :=
  ⟨by decide, claim5_missing_position _ 3 (by decide)⟩

/-! ### C10 — append is frame-preserving -/

/-- C10: a valid append only adds the installment rows and re-sorts: the new
table is a permutation of the old table plus the new rows, so every old row is
still present, all five fields unchanged, with at least its old multiplicity;
nothing is modified or removed. -/
theorem claim10_frame (df : List (Row (Option Date))) (date : Date)
    (tipo categoria : String) (valor : ℚ) (descricao : String) (parcelas : Nat) :
    (add_transaction df date tipo categoria valor descricao parcelas).Perm
      (df ++ (newRows date tipo categoria valor descricao parcelas).map liftRow)
    ∧ ∀ r ∈ df,
        r ∈ add_transaction df date tipo categoria valor descricao parcelas
        ∧ df.count r
            ≤ (add_transaction df date tipo categoria valor descricao parcelas).count r := by
  have hp := List.perm_insertionSort rowLe
    (df ++ (newRows date tipo categoria valor descricao parcelas).map liftRow)
  refine ⟨hp, ?_⟩
  intro r hr
  have hcount : (add_transaction df date tipo categoria valor descricao parcelas).count r
      = df.count r
        + ((newRows date tipo categoria valor descricao parcelas).map liftRow).count r := by
    simp only [add_transaction]
    rw [hp.count_eq, List.count_append]
  constructor
  · exact hp.mem_iff.mpr (List.mem_append_left _ hr)
  · omega

/-! ### C2 — net balance -/

/-- `total_balance` splits off the head row's signed amount. -/
theorem total_balance_cons (r : Row Date) (t : List (Row Date)) :
    total_balance (r :: t) = valorAjustado r + total_balance t := by
  simp [total_balance]

/-- `total_income` splits off the head row when it is an income. -/
theorem total_income_cons (r : Row Date) (t : List (Row Date)) :
    total_income (r :: t) = (if r.tipo = "Receita" then r.valor else 0) + total_income t := by
  by_cases hR : r.tipo = "Receita"
  · simp [total_income, List.filter_cons, hR]
  · simp [total_income, List.filter_cons, hR]

/-- `total_expense` splits off the head row when it is an expense. -/
theorem total_expense_cons (r : Row Date) (t : List (Row Date)) :
    total_expense (r :: t) = (if r.tipo = "Despesa" then r.valor else 0) + total_expense t := by
  by_cases hD : r.tipo = "Despesa"
  · simp [total_expense, List.filter_cons, hD]
  · simp [total_expense, List.filter_cons, hD]

/-- C2: on every table whose rows carry one of the two `Tipo` literals, the
net balance (`total_balance`, the sum of `Valor * Sinal`) equals
`total_income - total_expense`. -/
theorem claim2_net_balance (df : List (Row Date))
    (h : ∀ r ∈ df, r.tipo = "Receita" ∨ r.tipo = "Despesa") :
    total_balance df = total_income df - total_expense df := by
  induction df with
  | nil => simp [total_balance, total_income, total_expense]
  | cons r t ih =>
    have ih' := ih fun x hx => h x (List.mem_cons_of_mem _ hx)
    rw [total_balance_cons, total_income_cons, total_expense_cons, ih', valorAjustado, sinal]
    rcases h r (List.mem_cons_self _ _) with hR | hD
    · have hnd : ¬ r.tipo = "Despesa" := by rw [hR]; decide
      rw [if_pos hR, if_pos hR, if_neg hnd]
      ring
    · have hnr : ¬ r.tipo = "Receita" := by rw [hD]; decide
      rw [if_neg hnr, if_neg hnr, if_pos hD]
      ring

/-- C2 (witness): the identity on a concrete two-row table. -/
theorem claim2_net_balance_witness :
    (∀ r ∈ ([{ data := ⟨2024, 1, 15⟩, tipo := "Receita", categoria := "Salário",
               valor := 100, descricao := "" },
             { data := ⟨2024, 1, 20⟩, tipo := "Despesa", categoria := "Contas",
               valor := 40, descricao := "" }] : List (Row Date)),
        r.tipo = "Receita" ∨ r.tipo = "Despesa")
    ∧ total_balance
        [{ data := ⟨2024, 1, 15⟩, tipo := "Receita", categoria := "Salário",
           valor := 100, descricao := "" },
         { data := ⟨2024, 1, 20⟩, tipo := "Despesa", categoria := "Contas",
           valor := 40, descricao := "" }]
      = total_income
          [{ data := ⟨2024, 1, 15⟩, tipo := "Receita", categoria := "Salário",
             valor := 100, descricao := "" },
           { data := ⟨2024, 1, 20⟩, tipo := "Despesa", categoria := "Contas",
             valor := 40, descricao := "" }]
        - total_expense
            [{ data := ⟨2024, 1, 15⟩, tipo := "Receita", categoria := "Salário",
               valor := 100, descricao := "" },
             { data := ⟨2024, 1, 20⟩, tipo := "Despesa", categoria := "Contas",
               valor := 40, descricao := "" }] :=
  ⟨by decide, claim2_net_balance _ (by decide)⟩

/-! ### C6 — graceful degradation on load -/

/-- `dropna(subset=["Data"])` keeps exactly the rows whose `Data` is not null,
each otherwise unchanged. -/
theorem dropNaData_filter (df : List (Row (Option Date))) :
    (dropNaData df).map liftRow = df.filter fun r => r.data.isSome := by
  induction df with
  | nil => rfl
  | cons r t ih =>
    obtain ⟨rd, rt, rc, rv, rs⟩ := r
    cases rd with
    | none => simpa [dropNaData, List.filter_cons] using ih
    | some d => simpa [dropNaData, List.filter_cons, liftRow] using ih

/-- C6: loading degrades fields in place instead of rejecting rows: the loaded
table has one row per raw record; a record whose amount fails to parse gets
amount `0`; a record whose date fails to parse gets a null date; and the
displayed/aggregated table (`dropna` on `Data`) consists of exactly the loaded
rows whose date is not null. -/
theorem claim6_load_degrades (pdate : String → Option Date)
    (pnum : String → Option ℚ) (rows : List RawRow) :
    (load_data pdate pnum rows).length = rows.length
    ∧ (∀ r ∈ rows, pnum r.valorStr = none → (loadRow pdate pnum r).valor = 0)
    ∧ (∀ r ∈ rows, pdate r.dataStr = none → (loadRow pdate pnum r).data = none)
    ∧ (dropNaData (load_data pdate pnum rows)).map liftRow
        = (load_data pdate pnum rows).filter fun r => r.data.isSome := by
  refine ⟨by simp [load_data], ?_, ?_, dropNaData_filter _⟩
  · intro r _ hp
    simp [loadRow, hp]
  · intro r _ hp
    simp [loadRow, hp]

/-! ### C3 — cumulative series -/

/-- Summing `if x = d then c else 0` over a list not containing `x` gives 0. -/
theorem sum_map_ite_zero (c : ℚ) (x : Date) :
    ∀ ds : List Date, x ∉ ds → (ds.map fun d => if x = d then c else 0).sum = 0 := by
  intro ds
  induction ds with
  | nil => intro _; rfl
  | cons d t ih =>
    intro h
    have hxd : x ≠ d := fun hc => h (hc ▸ List.mem_cons_self _ _)
    simp [hxd, ih fun hc => h (List.mem_cons_of_mem _ hc)]

/-- Summing `if x = d then c else 0` over a duplicate-free list containing `x`
gives `c`. -/
theorem sum_map_ite_single (c : ℚ) (x : Date) :
    ∀ ds : List Date, ds.Nodup → x ∈ ds →
      (ds.map fun d => if x = d then c else 0).sum = c := by
  intro ds
  induction ds with
  | nil =>
    intro _ h
    cases h
  | cons d t ih =>
    intro hnd hmem
    rcases List.mem_cons.mp hmem with rfl | hx
    · have hx : x ∉ t := (List.nodup_cons.mp hnd).1
      simp [sum_map_ite_zero c x t hx]
    · have hxd : x ≠ d := by
        rintro rfl
        exact (List.nodup_cons.mp hnd).1 hx
      simp [hxd, ih (List.nodup_cons.mp hnd).2 hx]

/-- A per-day sum splits off the head row of the table. -/
theorem dailySum_cons (f : Row Date → ℚ) (r : Row Date) (t : List (Row Date))
    (d : Date) :
    dailySum f (r :: t) d = (if r.data = d then f r else 0) + dailySum f t d := by
  by_cases h : r.data = d
  · simp [dailySum, List.filter_cons, h]
  · simp [dailySum, List.filter_cons, h]

/-- Regrouping: the per-day sums over the distinct dates of a table add up to
the plain sum over the table (each row is counted on exactly its own date). -/
theorem sum_dailySum (f : Row Date → ℚ) (ds : List Date) (hnd : ds.Nodup) :
    ∀ df : List (Row Date), (∀ r ∈ df, r.data ∈ ds) →
      (ds.map fun d => dailySum f df d).sum = (df.map f).sum := by
  intro df
  induction df with
  | nil =>
    intro _
    simp [dailySum]
  | cons r t ih =>
    intro hmem
    have h1 : (ds.map fun d => dailySum f (r :: t) d).sum
        = (ds.map fun d => (if r.data = d then f r else 0) + dailySum f t d).sum := by
      simp only [dailySum_cons]
    rw [h1, List.sum_map_add,
      sum_map_ite_single (f r) r.data ds hnd (hmem r (List.mem_cons_self _ _)),
      ih fun x hx => hmem x (List.mem_cons_of_mem _ hx)]
    simp

/-- The dates of the running-sum series are exactly the grouped date keys. -/
theorem runningTriples_map_fst (df : List (Row Date)) :
    ∀ (ds : List Date) (acc : ℚ × ℚ × ℚ),
      (runningTriples df acc ds).map Prod.fst = ds := by
  intro ds
  induction ds with
  | nil => intro acc; rfl
  | cons d t ih =>
    intro acc
    simp [runningTriples, ih]

/-- The balance column of the last point of the running-sum series is the
start value plus the total of all per-day adjusted sums. -/
theorem runningTriples_last_bal (df : List (Row Date)) :
    ∀ (ds : List Date) (acc : ℚ × ℚ × ℚ), ds ≠ [] →
      (runningTriples df acc ds).getLast?.map (fun p => p.2.2.2)
        = some (acc.2.2 + (ds.map fun d => dailySum valorAjustado df d).sum) := by
  intro ds
  induction ds with
  | nil =>
    intro acc h
    exact absurd rfl h
  | cons d t ih =>
    intro acc _
    cases t with
    | nil => simp [runningTriples]
    | cons d2 t2 =>
      have hne : (d2 :: t2 : List Date) ≠ [] := by simp
      simp only [runningTriples]
      rw [List.getLast?_cons_cons]
      have := ih (acc.1 + dailySum receita_diaria df d,
        acc.2.1 + dailySum despesa_diaria df d,
        acc.2.2 + dailySum valorAjustado df d) hne
      simp only [runningTriples] at this
      rw [this]
      simp [add_assoc]

/-- C3: the cumulative series of a nonempty table has non-decreasing dates,
exactly one point per distinct date of the table, and its final cumulative
balance equals the table's net balance. -/
theorem claim3_cumulative (df : List (Row Date)) (hne : df ≠ []) :
    ((cumulative_series df).map Prod.fst).Chain' Date.le
    ∧ ((cumulative_series df).map Prod.fst).Nodup
    ∧ (∀ d : Date, d ∈ (cumulative_series df).map Prod.fst ↔ d ∈ df.map Row.data)
    ∧ (cumulative_series df).getLast?.map (fun p => p.2.2.2)
        = some (total_balance df) := by
  have hfst : (cumulative_series df).map Prod.fst = distinctDates df :=
    runningTriples_map_fst df (distinctDates df) (0, 0, 0)
  have hsorted : (distinctDates df).Pairwise Date.le :=
    (List.sorted_insertionSort Date.le (df.map Row.data)).sublist (List.dedup_sublist _)
  have hmem : ∀ d, d ∈ distinctDates df ↔ d ∈ df.map Row.data := by
    intro d
    unfold distinctDates
    rw [List.mem_dedup]
    exact (List.perm_insertionSort Date.le _).mem_iff
  have hnd : (distinctDates df).Nodup := List.nodup_dedup _
  refine ⟨?_, ?_, ?_, ?_⟩
  · rw [hfst]
    exact hsorted.chain'
  · rw [hfst]
    exact hnd
  · intro d
    rw [hfst]
    exact hmem d
  · have hdne : distinctDates df ≠ [] := by
      unfold distinctDates
      rw [Ne, List.dedup_eq_nil]
      intro hc
      have hperm : (df.map Row.data).Perm [] :=
        hc ▸ (List.perm_insertionSort Date.le (df.map Row.data)).symm
      exact hne (List.map_eq_nil_iff.mp hperm.eq_nil)
    have hlast := runningTriples_last_bal df (distinctDates df) (0, 0, 0) hdne
    have hsum := sum_dailySum valorAjustado (distinctDates df) hnd df
      (fun r hr => (hmem r.data).mpr (List.mem_map_of_mem _ hr))
    rw [cumulative_series, hlast, hsum]
    simp [total_balance]

/-- C3 (witness): the cumulative-series properties at a concrete one-row
table. -/
theorem claim3_cumulative_witness :
    (([{ data := ⟨2024, 1, 15⟩, tipo := "Receita", categoria := "Salário",
         valor := 100, descricao := "" }] : List (Row Date)) ≠ [])
    ∧ (((cumulative_series
          [{ data := ⟨2024, 1, 15⟩, tipo := "Receita", categoria := "Salário",
             valor := 100, descricao := "" }]).map Prod.fst).Chain' Date.le
    ∧ ((cumulative_series
          [{ data := ⟨2024, 1, 15⟩, tipo := "Receita", categoria := "Salário",
             valor := 100, descricao := "" }]).map Prod.fst).Nodup
    ∧ (∀ d : Date, d ∈ (cumulative_series
          [{ data := ⟨2024, 1, 15⟩, tipo := "Receita", categoria := "Salário",
             valor := 100, descricao := "" }]).map Prod.fst
        ↔ d ∈ ([{ data := ⟨2024, 1, 15⟩, tipo := "Receita",
                  categoria := "Salário",
                  valor := 100, descricao := "" }] : List (Row Date)).map Row.data)
    ∧ (cumulative_series
          [{ data := ⟨2024, 1, 15⟩, tipo := "Receita", categoria := "Salário",
             valor := 100, descricao := "" }]).getLast?.map (fun p => p.2.2.2)
        = some (total_balance
            [{ data := ⟨2024, 1, 15⟩, tipo := "Receita", categoria := "Salário",
               valor := 100, descricao := "" }])) :=
  ⟨List.cons_ne_nil _ _, claim3_cumulative _ (List.cons_ne_nil _ _)⟩

/-! ### C7 — currency formatting -/

/-- C7: `format_currency` renders with `.` grouping the thousands, `,` before
the two decimal digits and the `R$ ` prefix; in particular
`format_currency 1234.5 = "R$ 1.234,50"`. -/
theorem claim7_format_currency :
    format_currency (1234.5 : ℚ) = "R$ 1.234,50"
    ∧ format_currency (1000000 : ℚ) = "R$ 1.000.000,00"
    ∧ format_currency (0.5 : ℚ) = "R$ 0,50" := by
  have h1 : centsOf (1234.5 : ℚ) = 123450 := by
    unfold centsOf
    rw [round_eq]
    norm_num
  have h2 : centsOf (1000000 : ℚ) = 100000000 := by
    unfold centsOf
    rw [round_eq]
    norm_num
  have h3 : centsOf (0.5 : ℚ) = 50 := by
    unfold centsOf
    rw [round_eq]
    norm_num
  refine ⟨?_, ?_, ?_⟩
  · unfold format_currency
    rw [h1]
    decide
  · unfold format_currency
    rw [h2]
    decide
  · unfold format_currency
    rw [h3]
    decide
